import Mathlib

/-!
Verification development for the OCI OpenAI client wrapper
(`src/oci_openai/oci_openai.py`): a shallow embedding of endpoint
resolution (`_build_service_endpoint`, `_build_base_url`,
`_resolve_base_url`), default-header construction (`_build_headers`),
the configuration-resolution stage of `OciOpenAI.__init__`, and the
request-signing authentication layer (`HttpxOciAuth`) with its
time-based refresh policy and 401 retry, together with theorems
settling the specification claims about them.
-/

/-- Python truthiness of an optional string argument (`not x` in the
source): `None` and the empty string are falsy, any non-empty string is
truthy. -/
def py_truthy : Option String → Bool
  | none => false
  | some s => decide (s ≠ "")

/-- Substring test on character lists, the semantics of Python's
`needle in hay` for strings. -/
def contains_sub : List Char → List Char → Bool
  | needle, [] => needle.isEmpty
  | needle, c :: t => needle.isPrefixOf (c :: t) || contains_sub needle t

/-- Python's `needle in hay` membership test on strings. -/
def py_in (needle hay : String) : Bool :=
  contains_sub needle.data hay.data

/-- Python's `s.rstrip(" /")`: remove trailing characters drawn from the
two-character set of space and slash (note: only the space character,
not other whitespace such as tab). -/
def rstrip_space_slash (s : String) : String :=
  String.mk ((s.data.reverse.dropWhile fun c => decide (c = ' ' ∨ c = '/')).reverse)

/-- Number of start positions at which `needle` occurs as a substring of
`hay`. -/
def count_substr (needle hay : String) : Nat :=
  (List.range (hay.data.length + 1)).countP
    (fun i => needle.data.isPrefixOf (hay.data.drop i))

/-- Source `_build_service_endpoint(region)`: the fixed URL template
parameterized by region. -/
def build_service_endpoint (region : String) : String :=
  "https://inference.generativeai." ++ region ++ ".oci.oraclecloud.com"

/-- Source `_build_base_url(service_endpoint)`: strip trailing spaces and
slashes, then append the fixed inference path suffix. -/
def build_base_url (service_endpoint : String) : String :=
  rstrip_space_slash service_endpoint ++ "/openai/v1"

/-- Source `_resolve_base_url(region, service_endpoint, base_url)`:
error when all three arguments are falsy; otherwise `base_url` verbatim
if truthy, else `_build_base_url` of the service endpoint (the given one
if truthy, else the one synthesized from the region). -/
def resolve_base_url (region service_endpoint base_url : Option String) :
    Except String String :=
  if !py_truthy base_url && !py_truthy service_endpoint && !py_truthy region then
    .error "Region or service endpoint or base url must be provided."
  else
    .ok (if py_truthy base_url then base_url.getD ""
      else build_base_url (if py_truthy service_endpoint then service_endpoint.getD ""
        else build_service_endpoint (region.getD "")))

/-- Source constant `COMPARTMENT_ID_HEADER`. -/
def COMPARTMENT_ID_HEADER : String := "CompartmentId"

/-- Source constant `OPC_COMPARTMENT_ID_HEADER`. -/
def OPC_COMPARTMENT_ID_HEADER : String := "opc-compartment-id"

/-- Source constant `CONVERSATION_STORE_ID_HEADER`. -/
def CONVERSATION_STORE_ID_HEADER : String := "opc-conversation-store-id"

/-- Source `_build_headers(compartment_id, conversation_store_id)`: the
insertion-ordered header dict, modelled as an association list. -/
def build_headers (compartment_id conversation_store_id : Option String) :
    List (String × String) :=
  let h := if py_truthy compartment_id then
      [(COMPARTMENT_ID_HEADER, compartment_id.getD ""),
        (OPC_COMPARTMENT_ID_HEADER, compartment_id.getD "")]
    else []
  if py_truthy conversation_store_id then
    h ++ [(CONVERSATION_STORE_ID_HEADER, conversation_store_id.getD "")]
  else h

/-- Resolved client configuration computed during `OciOpenAI.__init__`
before delegating to the wrapped client. -/
structure ResolvedClientConfig where
  base_url : String
  headers : List (String × String)
deriving Repr, DecidableEq

/-- Configuration-resolution stage of `OciOpenAI.__init__`: resolve the
base URL, enforce the generative-AI compartment requirement
(`"generativeai" in base_url and not compartment_id`), then build the
default headers. -/
def oci_openai_resolve_config
    (region service_endpoint base_url compartment_id conversation_store_id : Option String) :
    Except String ResolvedClientConfig :=
  match resolve_base_url region service_endpoint base_url with
  | .error e => .error e
  | .ok url =>
    if py_in "generativeai" url && !py_truthy compartment_id then
      .error "The compartment_id is required to access the OCI Generative AI Service."
    else
      .ok { base_url := url, headers := build_headers compartment_id conversation_store_id }

/-- Dropping from a concatenation whose first part satisfies the
predicate throughout continues into the second part. -/
theorem dropWhile_append_all {p : Char → Bool} {a b : List Char}
    (h : ∀ x ∈ a, p x = true) :
    List.dropWhile p (a ++ b) = List.dropWhile p b := by
  induction a with
  | nil => rfl
  | cons x xs ih =>
    rw [List.cons_append, List.dropWhile_cons, h x (List.mem_cons_self x xs), if_pos rfl]
    exact ih (fun y hy => h y (List.mem_cons_of_mem x hy))

/-- Appending trailing space/slash noise does not change the result of
`rstrip_space_slash`. -/
theorem rstrip_space_slash_append (e junk : String)
    (h : ∀ c ∈ junk.data, c = ' ' ∨ c = '/') :
    rstrip_space_slash (e ++ junk) = rstrip_space_slash e := by
  unfold rstrip_space_slash
  have hdata : (e ++ junk).data = e.data ++ junk.data := by
    cases e; cases junk; rfl
  rw [hdata, List.reverse_append, dropWhile_append_all]
  intro x hx
  exact decide_eq_true (h x (List.mem_reverse.mp hx))

/-- Claim C1, counterexample: for a model-deployment service endpoint
(host not indicating a generative-AI service), `_resolve_base_url` does
NOT return the endpoint verbatim — the `/openai/v1` suffix is appended
anyway, refuting the claim that non-generative-AI endpoints are returned
with no suffix. -/
theorem c1_counterexample :
    resolve_base_url none (some "https://modeldeployment.us-ashburn-1.oci.customer-oci.com") none
        = .ok "https://modeldeployment.us-ashburn-1.oci.customer-oci.com/openai/v1"
    ∧ py_in "generativeai" "https://modeldeployment.us-ashburn-1.oci.customer-oci.com" = false
    ∧ "https://modeldeployment.us-ashburn-1.oci.customer-oci.com/openai/v1"
        ≠ "https://modeldeployment.us-ashburn-1.oci.customer-oci.com" := by
  refine ⟨rfl, by decide, by decide⟩

/-- Claim C1, amended: for every call to the endpoint resolver with a
truthy `service_endpoint` and falsy `base_url`, the endpoint is
normalized by stripping trailing slashes and space characters and the
fixed inference path suffix `/openai/v1` is appended unconditionally,
regardless of the endpoint's host — model-deployment endpoints included. -/
theorem c1_amended_suffix_unconditional (region base_url : Option String)
    (s : String) (hb : py_truthy base_url = false) (hs : s ≠ "") :
    resolve_base_url region (some s) base_url
      = .ok (rstrip_space_slash s ++ "/openai/v1") := by
  have hts : py_truthy (some s) = true := by simp [py_truthy, hs]
  simp [resolve_base_url, hb, hts, build_base_url]

/-- Claim C1 witness: the amended statement evaluated on a concrete
model-deployment endpoint with trailing noise. -/
theorem c1_amended_witness :
    py_truthy none = false ∧ "https://md.example.com// " ≠ ""
    ∧ resolve_base_url none (some "https://md.example.com// ") none
        = .ok (rstrip_space_slash "https://md.example.com// " ++ "/openai/v1") :=
  ⟨rfl, by decide,
    c1_amended_suffix_unconditional none none "https://md.example.com// " rfl (by decide)⟩

/-- Resolution errors exactly when all three of base URL, service
endpoint and region are falsy. -/
theorem resolve_base_url_error_iff (r s b : Option String) :
    (∃ e, resolve_base_url r s b = .error e) ↔
      (py_truthy b = false ∧ py_truthy s = false ∧ py_truthy r = false) := by
  unfold resolve_base_url
  cases hb : py_truthy b <;> cases hs : py_truthy s <;> cases hr : py_truthy r <;>
    simp [hb, hs, hr]

/-- Claim C7: construction of the resolved configuration fails with a
raised error exactly when none of region, service endpoint or base URL
is supplied (truthy), or when the resolved base URL contains
"generativeai" and no compartment id is supplied; otherwise it succeeds. -/
theorem c7_construction_error_iff
    (region service_endpoint base_url compartment_id conversation_store_id : Option String) :
    (∃ e, oci_openai_resolve_config region service_endpoint base_url
        compartment_id conversation_store_id = .error e)
      ↔ ((py_truthy base_url = false ∧ py_truthy service_endpoint = false
            ∧ py_truthy region = false)
          ∨ (∃ url, resolve_base_url region service_endpoint base_url = .ok url
              ∧ py_in "generativeai" url = true ∧ py_truthy compartment_id = false)) := by
  unfold oci_openai_resolve_config
  cases hres : resolve_base_url region service_endpoint base_url with
  | error e =>
    have hall := (resolve_base_url_error_iff region service_endpoint base_url).mp ⟨e, hres⟩
    simp [hall, hres]
  | ok url =>
    have hnotall : ¬(py_truthy base_url = false ∧ py_truthy service_endpoint = false
        ∧ py_truthy region = false) := by
      intro hall
      rcases (resolve_base_url_error_iff region service_endpoint base_url).mpr hall with ⟨e, he⟩
      rw [hres] at he
      cases he
    cases hgen : py_in "generativeai" url <;> cases hcomp : py_truthy compartment_id <;>
      simp [hnotall, hres, hgen, hcomp]

/-- Data of a string concatenation is the concatenation of the data. -/
theorem string_data_append (s t : String) : (s ++ t).data = s.data ++ t.data := by
  cases s
  cases t
  rfl

/-- Membership in a `dropWhile` result implies membership in the original
list. -/
theorem mem_of_mem_dropWhile {p : Char → Bool} {l : List Char} {c : Char}
    (h : c ∈ List.dropWhile p l) : c ∈ l := by
  induction l with
  | nil => simp at h
  | cons x xs ih =>
    rw [List.dropWhile_cons] at h
    by_cases hx : p x = true
    · rw [if_pos hx] at h
      exact List.mem_cons_of_mem x (ih h)
    · rw [if_neg hx] at h
      exact h

/-- Stripping a concatenation whose first part does not itself end in
strippable characters removes only (part of) the trailing noise. -/
theorem rstrip_space_slash_concat (e junk : String)
    (he : List.dropWhile (fun c => decide (c = ' ' ∨ c = '/')) e.data.reverse
      = e.data.reverse) :
    (rstrip_space_slash (e ++ junk)).data
      = e.data
        ++ (List.dropWhile (fun c => decide (c = ' ' ∨ c = '/')) junk.data.reverse).reverse := by
  have hmk : ∀ l : List Char, (String.mk l).data = l := fun l => rfl
  unfold rstrip_space_slash
  rw [hmk, string_data_append, List.reverse_append, List.dropWhile_append]
  by_cases hje : (List.dropWhile (fun c => decide (c = ' ' ∨ c = '/')) junk.data.reverse).isEmpty
      = true
  · have hnil : List.dropWhile (fun c => decide (c = ' ' ∨ c = '/')) junk.data.reverse = [] := by
      rwa [List.isEmpty_iff] at hje
    rw [if_pos hje, he, List.reverse_reverse, hnil]
    simp
  · rw [if_neg hje, List.reverse_append, List.reverse_reverse]

/-- A prefix of a concatenation that fits inside the first part is a
prefix of the first part. -/
theorem prefix_of_append_of_length_le {l a b : List Char}
    (h : l <+: a ++ b) (hlen : l.length ≤ a.length) : l <+: a := by
  have h1 : l = (a ++ b).take l.length := List.prefix_iff_eq_take.mp h
  have h2 : (a ++ b).take l.length = a.take l.length := List.take_append_of_le_length hlen
  rw [List.prefix_iff_eq_take]
  exact h1.trans h2

/-- Dropping the same count from both sides of a prefix relation
preserves it, provided the drop stays inside the shorter list. -/
theorem prefix_drop_of_le {l₁ l₂ : List Char} (h : l₁ <+: l₂) (n : Nat)
    (hn : n ≤ l₁.length) : l₁.drop n <+: l₂.drop n := by
  obtain ⟨t, ht⟩ := h
  refine ⟨t, ?_⟩
  rw [← ht, List.drop_append_eq_append_drop, Nat.sub_eq_zero_of_le hn, List.drop_zero]

/-- A `countP` over an initial segment of the naturals with a unique
satisfying position evaluates to one. -/
theorem countP_range_unique (n x : Nat) (q : Nat → Bool) (hx : x < n)
    (h : ∀ i, q i = true ↔ i = x) :
    (List.range n).countP q = 1 := by
  have hcong : ∀ i ∈ List.range n, (q i = true ↔ (fun j => j == x) i = true) := by
    intro i _
    simp only [beq_iff_eq]
    exact h i
  rw [List.countP_congr hcong, ← List.count_eq_countP,
    List.count_eq_one_of_mem (List.nodup_range n) (List.mem_range.mpr hx)]

/-- Position lemma for the two-character pattern "v1": in the endpoint
for us-chicago-1, followed by whitespace/slash noise, followed by the
/openai/v1 suffix, the pattern "v1" occurs only inside the suffix, at
offset 8 — the endpoint contains no "v1" and the noise contains neither
letter. -/
theorem v1_position (J : List Char)
    (hJ : ∀ c ∈ J, c.isWhitespace = true ∨ c = '/') (q : Nat)
    (h : ['v', '1'] <+:
      (("https://inference.generativeai.us-chicago-1.oci.oraclecloud.com" : String).data
        ++ (J ++ ("/openai/v1" : String).data)).drop q) :
    q = 63 + J.length + 8 := by
  have hA : ("https://inference.generativeai.us-chicago-1.oci.oraclecloud.com" : String).data.length
      = 63 := by decide
  by_cases h1 : q < 63
  · by_cases hq62 : q = 62
    · subst hq62
      rw [List.drop_append_eq_append_drop] at h
      rw [show ("https://inference.generativeai.us-chicago-1.oci.oraclecloud.com" : String).data.drop 62
          = ['m'] from by decide] at h
      rw [List.singleton_append] at h
      obtain ⟨t, ht⟩ := h
      rw [show (['v', '1'] : List Char) ++ t = 'v' :: '1' :: t from rfl] at ht
      injection ht with hv _
      exact absurd hv (by decide)
    · rw [List.drop_append_eq_append_drop] at h
      have hfit : (['v', '1'] : List Char).length
          ≤ (("https://inference.generativeai.us-chicago-1.oci.oraclecloud.com" : String).data.drop q).length := by
        rw [List.length_drop, hA]
        show 2 ≤ 63 - q
        omega
      have hMA := prefix_of_append_of_length_le h hfit
      have htrue := List.isPrefixOf_iff_prefix.mpr hMA
      have hball : ∀ j ∈ List.range 62,
          (!(List.isPrefixOf ['v', '1']
            (("https://inference.generativeai.us-chicago-1.oci.oraclecloud.com" : String).data.drop j)))
            = true :=
        List.all_eq_true.mp (by decide)
      have hfalse := hball q (List.mem_range.mpr (by omega))
      rw [htrue] at hfalse
      simp at hfalse
  · by_cases h2 : q < 63 + J.length
    · rw [List.drop_append_eq_append_drop, hA] at h
      have hlq : ("https://inference.generativeai.us-chicago-1.oci.oraclecloud.com" : String).data.length
          ≤ q := by
        rw [hA]
        omega
      rw [List.drop_eq_nil_of_le hlq, List.nil_append,
        List.drop_append_eq_append_drop] at h
      have hk : q - 63 < J.length := by omega
      cases hJd : J.drop (q - 63) with
      | nil =>
        have hlen0 := congrArg List.length hJd
        rw [List.length_drop] at hlen0
        simp at hlen0
        omega
      | cons c rest =>
        rw [hJd, List.cons_append] at h
        obtain ⟨t, ht⟩ := h
        rw [show (['v', '1'] : List Char) ++ t = 'v' :: '1' :: t from rfl] at ht
        injection ht with hv _
        have hcmem : c ∈ J := by
          have hcd : c ∈ J.drop (q - 63) := by
            rw [hJd]
            exact List.mem_cons_self c rest
          exact (List.drop_sublist (q - 63) J).subset hcd
        rcases hJ c hcmem with hws | hsl
        · rw [← hv] at hws
          exact absurd hws (by decide)
        · rw [← hv] at hsl
          exact absurd hsl (by decide)
    · rw [← List.append_assoc, List.drop_append_eq_append_drop] at h
      have hAJ : (("https://inference.generativeai.us-chicago-1.oci.oraclecloud.com" : String).data
          ++ J).length = 63 + J.length := by
        rw [List.length_append, hA]
      rw [hAJ] at h
      have hnil : (("https://inference.generativeai.us-chicago-1.oci.oraclecloud.com" : String).data
          ++ J).drop q = [] := by
        refine List.drop_eq_nil_of_le ?_
        rw [hAJ]
        omega
      rw [hnil, List.nil_append] at h
      have htrue : List.isPrefixOf ['v', '1']
          (("/openai/v1" : String).data.drop (q - (63 + J.length))) = true :=
        List.isPrefixOf_iff_prefix.mpr h
      have hle := h.length_le
      rw [List.length_drop,
        show ("/openai/v1" : String).data.length = 10 from by decide] at hle
      have hk : q - (63 + J.length) ≤ 8 := by
        have h2' : (2 : Nat) ≤ 10 - (q - (63 + J.length)) := hle
        omega
      have hball : ∀ j ∈ List.range 9,
          ((!(List.isPrefixOf ['v', '1'] (("/openai/v1" : String).data.drop j))) || (j == 8))
            = true :=
        List.all_eq_true.mp (by decide)
      have hk8 := hball (q - (63 + J.length)) (List.mem_range.mpr (by omega))
      rw [htrue] at hk8
      simp at hk8
      omega

/-- Unique start position of /openai/v1: with whitespace/slash noise
between the us-chicago-1 endpoint and the suffix, the suffix matches
exactly at the boundary position and nowhere else. -/
theorem openai_v1_match_iff (J : List Char)
    (hJ : ∀ c ∈ J, c.isWhitespace = true ∨ c = '/') (i : Nat) :
    (("/openai/v1" : String).data.isPrefixOf
      ((("https://inference.generativeai.us-chicago-1.oci.oraclecloud.com" : String).data
        ++ (J ++ ("/openai/v1" : String).data)).drop i) = true)
      ↔ i = 63 + J.length := by
  have hA : ("https://inference.generativeai.us-chicago-1.oci.oraclecloud.com" : String).data.length
      = 63 := by decide
  constructor
  · intro hm
    rw [List.isPrefixOf_iff_prefix] at hm
    have h8 := prefix_drop_of_le hm 8 (by decide)
    rw [List.drop_drop,
      show ("/openai/v1" : String).data.drop 8 = ['v', '1'] from by decide] at h8
    have hpos := v1_position J hJ (i + 8) h8
    omega
  · intro hi
    subst hi
    rw [List.isPrefixOf_iff_prefix, ← List.append_assoc]
    have hdl := List.drop_left
      (("https://inference.generativeai.us-chicago-1.oci.oraclecloud.com" : String).data ++ J)
      ("/openai/v1" : String).data
    rw [List.length_append, hA] at hdl
    rw [hdl]

/-- With arbitrary trailing whitespace/slash noise appended to the
us-chicago-1 endpoint, the built base URL contains the /openai/v1 suffix
exactly once — whether or not the normalization strips the noise. -/
theorem build_base_url_noise_suffix_once (junk : String)
    (hj : ∀ c ∈ junk.data, c.isWhitespace = true ∨ c = '/') :
    count_substr "/openai/v1"
      (build_base_url
        ("https://inference.generativeai.us-chicago-1.oci.oraclecloud.com" ++ junk)) = 1 := by
  have hrs := rstrip_space_slash_concat
    "https://inference.generativeai.us-chicago-1.oci.oraclecloud.com" junk (by decide)
  have hdata : (build_base_url
      ("https://inference.generativeai.us-chicago-1.oci.oraclecloud.com" ++ junk)).data
      = ("https://inference.generativeai.us-chicago-1.oci.oraclecloud.com" : String).data
        ++ ((List.dropWhile (fun c => decide (c = ' ' ∨ c = '/')) junk.data.reverse).reverse
          ++ ("/openai/v1" : String).data) := by
    unfold build_base_url
    rw [string_data_append, hrs, List.append_assoc]
  have hJchar : ∀ c ∈ (List.dropWhile (fun c => decide (c = ' ' ∨ c = '/'))
      junk.data.reverse).reverse, c.isWhitespace = true ∨ c = '/' := by
    intro c hc
    exact hj c (List.mem_reverse.mp (mem_of_mem_dropWhile (List.mem_reverse.mp hc)))
  unfold count_substr
  rw [hdata]
  rw [show (("https://inference.generativeai.us-chicago-1.oci.oraclecloud.com" : String).data
      ++ ((List.dropWhile (fun c => decide (c = ' ' ∨ c = '/')) junk.data.reverse).reverse
        ++ ("/openai/v1" : String).data)).length
      = 63 + ((List.dropWhile (fun c => decide (c = ' ' ∨ c = '/'))
          junk.data.reverse).reverse.length + 10) from by
    rw [List.length_append, List.length_append,
      show ("https://inference.generativeai.us-chicago-1.oci.oraclecloud.com" : String).data.length
        = 63 from by decide,
      show ("/openai/v1" : String).data.length = 10 from by decide]]
  exact countP_range_unique _
    (63 + (List.dropWhile (fun c => decide (c = ' ' ∨ c = '/')) junk.data.reverse).reverse.length)
    _ (by omega) (openai_v1_match_iff _ hJchar)

/-- Claim C8, counterexample: a trailing tab is whitespace, yet it
survives the normalization (`rstrip(" /")` strips only spaces and
slashes), so suffixing an endpoint that ends with that whitespace does
not reproduce the exact canonical URL — the tab remains in the result,
refuting the claim's promise that trailing whitespace noise leaves the
generated string unchanged. -/
theorem c8_counterexample :
    Char.isWhitespace '\t' = true
    ∧ build_base_url
        ("https://inference.generativeai.us-chicago-1.oci.oraclecloud.com" ++ "\t")
        = "https://inference.generativeai.us-chicago-1.oci.oraclecloud.com\t/openai/v1"
    ∧ "https://inference.generativeai.us-chicago-1.oci.oraclecloud.com\t/openai/v1"
        ≠ "https://inference.generativeai.us-chicago-1.oci.oraclecloud.com/openai/v1" := by
  refine ⟨by decide, by decide, by decide⟩

/-- Claim C8, amended: resolving from the region "us-chicago-1" alone
yields exactly the expected generative-AI inference base URL, which
contains the /openai/v1 suffix exactly once; the suffix is applied
exactly once even when the endpoint being suffixed carries trailing
slash or whitespace noise; but only trailing slashes and space
characters are stripped by the normalization, so exactly that noise
reproduces the canonical string, while other whitespace (e.g. a tab)
survives in the URL. -/
theorem c8_amended_region_resolution :
    resolve_base_url (some "us-chicago-1") none none
        = .ok "https://inference.generativeai.us-chicago-1.oci.oraclecloud.com/openai/v1"
    ∧ count_substr "/openai/v1"
        "https://inference.generativeai.us-chicago-1.oci.oraclecloud.com/openai/v1" = 1
    ∧ (∀ junk : String, (∀ c ∈ junk.data, c = ' ' ∨ c = '/') →
        build_base_url ("https://inference.generativeai.us-chicago-1.oci.oraclecloud.com" ++ junk)
          = "https://inference.generativeai.us-chicago-1.oci.oraclecloud.com/openai/v1")
    ∧ (∀ junk : String, (∀ c ∈ junk.data, c.isWhitespace = true ∨ c = '/') →
        count_substr "/openai/v1"
          (build_base_url
            ("https://inference.generativeai.us-chicago-1.oci.oraclecloud.com" ++ junk)) = 1) := by
  refine ⟨rfl, by decide, ?_, ?_⟩
  · intro junk h
    unfold build_base_url
    rw [rstrip_space_slash_append _ _ h]
    decide
  · intro junk hj
    exact build_base_url_noise_suffix_once junk hj

/-- Claim C8 witness: the exact-string clause evaluated on space/slash
noise, and the suffix-exactly-once clause evaluated on noise containing
a tab — whitespace that the normalization does not strip. -/
theorem c8_witness :
    (∀ c ∈ (" // " : String).data, c = ' ' ∨ c = '/')
    ∧ build_base_url ("https://inference.generativeai.us-chicago-1.oci.oraclecloud.com" ++ " // ")
        = "https://inference.generativeai.us-chicago-1.oci.oraclecloud.com/openai/v1"
    ∧ (∀ c ∈ ("\t //" : String).data, c.isWhitespace = true ∨ c = '/')
    ∧ count_substr "/openai/v1"
        (build_base_url
          ("https://inference.generativeai.us-chicago-1.oci.oraclecloud.com" ++ "\t //")) = 1 :=
  ⟨by decide, c8_amended_region_resolution.2.2.1 " // " (by decide),
    by decide, c8_amended_region_resolution.2.2.2 "\t //" (by decide)⟩

/-- Claim C9: `_build_headers` with neither argument returns the empty
mapping; with only a conversation-store id exactly one header; with both
ids exactly three headers with both compartment header names bound to
the same supplied compartment id; and no emitted header ever carries an
empty value. -/
theorem c9_build_headers_shape :
    build_headers none none = []
    ∧ (∀ cs : String, cs ≠ "" →
        build_headers none (some cs) = [(CONVERSATION_STORE_ID_HEADER, cs)])
    ∧ (∀ cid cs : String, cid ≠ "" → cs ≠ "" →
        build_headers (some cid) (some cs)
          = [(COMPARTMENT_ID_HEADER, cid), (OPC_COMPARTMENT_ID_HEADER, cid),
              (CONVERSATION_STORE_ID_HEADER, cs)])
    ∧ (∀ c v : Option String, ∀ kv ∈ build_headers c v, kv.2 ≠ "") := by
  refine ⟨rfl, ?_, ?_, ?_⟩
  · intro cs hcs
    simp [build_headers, py_truthy, hcs]
  · intro cid cs hcid hcs
    simp [build_headers, py_truthy, hcid, hcs]
  · intro c v kv hkv
    cases c with
    | none =>
      cases v with
      | none => simp [build_headers, py_truthy] at hkv
      | some cs =>
        by_cases hcs : cs = ""
        · simp [build_headers, py_truthy, hcs] at hkv
        · simp [build_headers, py_truthy, hcs] at hkv
          rw [hkv]
          exact hcs
    | some cid =>
      by_cases hcid : cid = ""
      · cases v with
        | none => simp [build_headers, py_truthy, hcid] at hkv
        | some cs =>
          by_cases hcs : cs = ""
          · simp [build_headers, py_truthy, hcid, hcs] at hkv
          · simp [build_headers, py_truthy, hcid, hcs] at hkv
            rw [hkv]
            exact hcs
      · cases v with
        | none =>
          simp [build_headers, py_truthy, hcid] at hkv
          rcases hkv with h | h <;> (rw [h]; exact hcid)
        | some cs =>
          by_cases hcs : cs = ""
          · simp [build_headers, py_truthy, hcid, hcs] at hkv
            rcases hkv with h | h <;> (rw [h]; exact hcid)
          · simp [build_headers, py_truthy, hcid, hcs] at hkv
            rcases hkv with h | h | h <;> rw [h]
            · exact hcid
            · exact hcid
            · exact hcs

/-- Claim C9 witness: the three-header clause evaluated on concrete ids. -/
theorem c9_witness :
    ("ocid1.compartment.oc1..aaa" : String) ≠ "" ∧ ("store-1" : String) ≠ ""
    ∧ build_headers (some "ocid1.compartment.oc1..aaa") (some "store-1")
        = [(COMPARTMENT_ID_HEADER, "ocid1.compartment.oc1..aaa"),
            (OPC_COMPARTMENT_ID_HEADER, "ocid1.compartment.oc1..aaa"),
            (CONVERSATION_STORE_ID_HEADER, "store-1")] :=
  ⟨by decide, by decide,
    c9_build_headers_shape.2.2.1 "ocid1.compartment.oc1..aaa" "store-1" (by decide) (by decide)⟩

/-- Claim C10: the empty string is treated exactly like an omitted
argument throughout the construction interface: falsiness characterizes
`none` and `""`; `_resolve_base_url` treats an empty base URL or service
endpoint or region like an absent one; `_build_headers` with an empty
compartment id emits no compartment headers; and a generative-AI base
URL combined with an empty compartment id is rejected at construction. -/
theorem c10_empty_string_like_none :
    (∀ x : Option String, py_truthy x = false ↔ (x = none ∨ x = some ""))
    ∧ (∀ r s, resolve_base_url r s (some "") = resolve_base_url r s none)
    ∧ (∀ r b, resolve_base_url r (some "") b = resolve_base_url r none b)
    ∧ (∀ s b, resolve_base_url (some "") s b = resolve_base_url none s b)
    ∧ (∀ v, build_headers (some "") v = build_headers none v)
    ∧ (∀ conv, ∃ e,
        oci_openai_resolve_config (some "us-chicago-1") none none (some "") conv = .error e) := by
  refine ⟨?_, ?_, ?_, ?_, ?_, ?_⟩
  · intro x
    cases x with
    | none => simp [py_truthy]
    | some s => simp [py_truthy]
  · intro r s
    simp [resolve_base_url, py_truthy]
  · intro r b
    simp [resolve_base_url, py_truthy]
  · intro s b
    simp [resolve_base_url, py_truthy]
  · intro v
    simp [build_headers, py_truthy]
  · intro conv
    exact ⟨"The compartment_id is required to access the OCI Generative AI Service.", rfl⟩

/-- State of an `HttpxOciAuth` instance: the current signer backend
(identified by an instance id), the refresh interval, and the
`_last_refresh` timestamp (`None` representable). Timestamps are
modelled as integers. -/
structure AuthState where
  signer : Nat
  refresh_interval : Int
  last_refresh : Option Int
deriving Repr, DecidableEq

/-- Source `HttpxOciAuth.__init__`: stores the signer and refresh
interval and sets `_last_refresh` to the construction time
(`time.time()`). -/
def httpx_oci_auth_init (signer : Nat) (refresh_interval : Int) (now : Int) : AuthState :=
  { signer := signer, refresh_interval := refresh_interval, last_refresh := some now }

/-- Source `HttpxOciAuth._should_refresh_token`: `not self._last_refresh`
(which is true for `None` and for the float `0.0`) forces a refresh;
otherwise refresh exactly when `now - last_refresh >= refresh_interval`. -/
def should_refresh_token (last_refresh : Option Int) (now refresh_interval : Int) : Bool :=
  match last_refresh with
  | none => true
  | some t => if t = 0 then true else decide (now - t ≥ refresh_interval)

/-- Observable events of one pass through `auth_flow`: lock
acquisition/release, a call to `_refresh_signer` (the flag records
whether it was the forced 401-path call), a signing operation with the
signer instance used, and a network forward (a `yield` of the request). -/
inductive Ev where
  | lockAcquire : Ev
  | lockRelease : Ev
  | refreshCall : Bool → Ev
  | sign : Nat → Ev
  | forward : Ev
deriving Repr, DecidableEq

/-- Source `HttpxOciAuth._refresh_if_needed`: under the lock, when the
staleness check fires, call `_refresh_signer`; on success set
`_last_refresh` to now; a raised exception is caught and logged, leaving
signer and timestamp unchanged. `refresh_result` is the outcome of
`_refresh_signer` (the id of the freshly constructed signer, or an
exception). Returns the updated state and the event trace. -/
def refresh_if_needed (st : AuthState) (now : Int) (refresh_result : Except Unit Nat) :
    AuthState × List Ev :=
  if should_refresh_token st.last_refresh now st.refresh_interval then
    match refresh_result with
    | .ok s' => ({ st with signer := s', last_refresh := some now },
        [Ev.lockAcquire, Ev.refreshCall false, Ev.lockRelease])
    | .error _ => (st, [Ev.lockAcquire, Ev.refreshCall false, Ev.lockRelease])
  else (st, [Ev.lockAcquire, Ev.lockRelease])

/-- Result of one pass through `auth_flow`: the event trace, the final
authenticator state, the status of the response handed back to the
caller, and for each forwarded attempt the signer that signed it and the
body it carried. -/
structure FlowResult where
  trace : List Ev
  final_state : AuthState
  final_status : Nat
  forwarded_signers : List Nat
  forwarded_bodies : List String
deriving Repr, DecidableEq

/-- Source `HttpxOciAuth.auth_flow`: refresh if needed, capture the body
`content` once, sign with the current signer, forward (first `yield`,
outside the lock). If the response status is 401: acquire the lock and,
inside a try block, call `_refresh_signer` (outcome `refresh2`), set
`_last_refresh := now401`, rebuild the request over the same captured
body, re-sign it (`resign2_ok` records whether signing raises), and
forward once more — the second `yield` sits inside the `with self._lock`
block, so the retry's network round trip happens with the lock held; any
exception in that block is caught and logged, and the flow ends with the
original 401 as the final response. `status2` is the retry's response
status. -/
def auth_flow (st0 : AuthState) (now_check : Int) (refresh1 : Except Unit Nat)
    (content : String) (status1 : Nat) (now401 : Int)
    (refresh2 : Except Unit Nat) (resign2_ok : Bool) (status2 : Nat) : FlowResult :=
  let st1 := (refresh_if_needed st0 now_check refresh1).1
  let pre := (refresh_if_needed st0 now_check refresh1).2
      ++ [Ev.sign st1.signer, Ev.forward]
  if status1 = 401 then
    match refresh2 with
    | .error _ =>
      { trace := pre ++ [Ev.lockAcquire, Ev.refreshCall true, Ev.lockRelease]
        final_state := st1
        final_status := status1
        forwarded_signers := [st1.signer]
        forwarded_bodies := [content] }
    | .ok s' =>
      if resign2_ok then
        { trace := pre ++ [Ev.lockAcquire, Ev.refreshCall true, Ev.sign s', Ev.forward,
            Ev.lockRelease]
          final_state := { st1 with signer := s', last_refresh := some now401 }
          final_status := status2
          forwarded_signers := [st1.signer, s']
          forwarded_bodies := [content, content] }
      else
        { trace := pre ++ [Ev.lockAcquire, Ev.refreshCall true, Ev.lockRelease]
          final_state := { st1 with signer := s', last_refresh := some now401 }
          final_status := status1
          forwarded_signers := [st1.signer]
          forwarded_bodies := [content] }
  else
    { trace := pre
      final_state := st1
      final_status := status1
      forwarded_signers := [st1.signer]
      forwarded_bodies := [content] }

/-- Number of occurrences of an event in a trace. -/
def count_ev (e : Ev) : List Ev → Nat
  | [] => 0
  | x :: r => (if x = e then 1 else 0) + count_ev e r

/-- Number of network forwards performed while the lock is held, scanning
a trace at a given starting lock depth. -/
def forwards_under_lock : List Ev → Nat → Nat
  | [], _ => 0
  | Ev.lockAcquire :: r, d => forwards_under_lock r (d + 1)
  | Ev.lockRelease :: r, d => forwards_under_lock r (d - 1)
  | Ev.forward :: r, d => (if 0 < d then 1 else 0) + forwards_under_lock r d
  | _ :: r, d => forwards_under_lock r d

/-- Number of signing operations performed while the lock is held,
scanning a trace at a given starting lock depth. -/
def signs_under_lock : List Ev → Nat → Nat
  | [], _ => 0
  | Ev.lockAcquire :: r, d => signs_under_lock r (d + 1)
  | Ev.lockRelease :: r, d => signs_under_lock r (d - 1)
  | Ev.sign _ :: r, d => (if 0 < d then 1 else 0) + signs_under_lock r d
  | _ :: r, d => signs_under_lock r d

/-- Claim C2, counterexample: a concrete execution in which the first
response is 401 and the forced refresh and re-signing succeed performs a
network forward while the exclusive lock is held (the retry's `yield`
sits inside the `with self._lock` block), refuting the claim that the
lock is never held across the network call that forwards a request. -/
theorem c2_counterexample :
    0 < forwards_under_lock
        (auth_flow ⟨0, 3600, some 100⟩ 100 (Except.ok 5) "body" 401 200
          (Except.ok 1) true 200).trace 0 := by
  decide

/-- Claim C2, amended: in every execution of `auth_flow`, the initial
signing and forwarding happen without the lock (exactly one forward —
the first — and no signing occurs under the lock on the non-401 path),
and the lock is additionally held across the forced refresh, the
re-signing and the retried network forward exactly when the first
response is 401 and the forced refresh and re-signing succeed. -/
theorem c2_amended_lock_scope (st0 : AuthState) (now_check now401 : Int)
    (refresh1 refresh2 : Except Unit Nat) (content : String)
    (status1 status2 : Nat) (resign2_ok : Bool) :
    forwards_under_lock
        (auth_flow st0 now_check refresh1 content status1 now401 refresh2 resign2_ok status2).trace 0
      = (if status1 = 401 then
          (match refresh2, resign2_ok with | .ok _, true => 1 | _, _ => 0) else 0)
    ∧ count_ev Ev.forward
        (auth_flow st0 now_check refresh1 content status1 now401 refresh2 resign2_ok status2).trace
      = forwards_under_lock
          (auth_flow st0 now_check refresh1 content status1 now401 refresh2 resign2_ok status2).trace 0
        + 1
    ∧ signs_under_lock
        (auth_flow st0 now_check refresh1 content status1 now401 refresh2 resign2_ok status2).trace 0
      = (if status1 = 401 then
          (match refresh2, resign2_ok with | .ok _, true => 1 | _, _ => 0) else 0) := by
  unfold auth_flow refresh_if_needed
  by_cases hst : should_refresh_token st0.last_refresh now_check st0.refresh_interval = true <;>
    by_cases h401 : status1 = 401 <;>
      cases refresh1 <;> cases refresh2 <;> cases resign2_ok <;>
        simp [hst, h401, forwards_under_lock, signs_under_lock, count_ev]

/-- Claim C3: when the first forwarded attempt is answered with 401,
`auth_flow` performs exactly one forced refresh call regardless of
staleness; when the forced refresh and re-signing succeed it forwards
exactly one retried request, re-signed with the fresh signer over the
same captured body, and hands the caller the retry's response; when
either raises, the exception is swallowed, no retry is forwarded, and
the caller receives the original 401 unmodified; in every case at most
two requests are forwarded in total, independently of the retry's
status. -/
theorem c3_single_retry_on_401 (st0 : AuthState) (now_check now401 : Int)
    (refresh1 refresh2 : Except Unit Nat) (content : String)
    (resign2_ok : Bool) (status2 : Nat) :
    count_ev (Ev.refreshCall true)
        (auth_flow st0 now_check refresh1 content 401 now401 refresh2 resign2_ok status2).trace = 1
    ∧ (auth_flow st0 now_check refresh1 content 401 now401 refresh2 resign2_ok status2).forwarded_bodies
      = (match refresh2, resign2_ok with
          | .ok _, true => [content, content]
          | _, _ => [content])
    ∧ (auth_flow st0 now_check refresh1 content 401 now401 refresh2 resign2_ok status2).forwarded_signers
      = (match refresh2, resign2_ok with
          | .ok s', true => [(refresh_if_needed st0 now_check refresh1).1.signer, s']
          | _, _ => [(refresh_if_needed st0 now_check refresh1).1.signer])
    ∧ (auth_flow st0 now_check refresh1 content 401 now401 refresh2 resign2_ok status2).final_status
      = (match refresh2, resign2_ok with
          | .ok _, true => status2
          | _, _ => 401)
    ∧ (auth_flow st0 now_check refresh1 content 401 now401 refresh2 resign2_ok status2).forwarded_signers.length
        ≤ 2 := by
  unfold auth_flow refresh_if_needed
  by_cases hst : should_refresh_token st0.last_refresh now_check st0.refresh_interval = true <;>
    cases refresh1 <;> cases refresh2 <;> cases resign2_ok <;>
      simp [hst, count_ev]

/-- Relevant keys of the profile-keyed OCI configuration mapping; an
absent key models a `KeyError` on subscript access. -/
structure OciConfigModel where
  security_token_file : Option String
  key_file : Option String

/-- Model of the identity environment seen by
`OciSessionAuth._refresh_signer`: outcomes of reading the profile
configuration (`oci.config.from_file`), reading and stripping the
session token file, loading the private key, and constructing a
`SecurityTokenSigner` (which yields a fresh signer instance id). Each
step may raise. -/
structure SessionWorld where
  from_file : Except Unit OciConfigModel
  read_token : String → Except Unit String
  load_private_key : String → Except Unit String
  mk_security_token_signer : String → String → Except Unit Nat

/-- Source `OciSessionAuth._load_token`: subscript
`config["security_token_file"]` (a `KeyError` when absent), then read
and strip the token file. -/
def session_load_token (w : SessionWorld) (config : OciConfigModel) : Except Unit String :=
  match config.security_token_file with
  | none => .error ()
  | some f => w.read_token f

/-- Source `OciSessionAuth._load_private_key`: subscript
`config["key_file"]`, then load the key from that file. -/
def session_load_private_key (w : SessionWorld) (config : OciConfigModel) :
    Except Unit String :=
  match config.key_file with
  | none => .error ()
  | some f => w.load_private_key f

/-- Source `OciSessionAuth._refresh_signer`: reload the configuration,
the token and the private key, then construct a new
`SecurityTokenSigner`; `self.signer` is assigned only by the final
statement, so an exception raised at any step propagates with the
previous signer left in place. -/
def session_refresh_signer (w : SessionWorld) : Except Unit Nat := do
  let config ← w.from_file
  let token ← session_load_token w config
  let key ← session_load_private_key w config
  w.mk_security_token_signer token key

/-- Claim C4: whenever the backend-specific refresh procedure of the
session backend raises, `_refresh_if_needed` returns normally (the
exception is caught) and leaves both the signer backend and the
`last_refresh` timestamp exactly as they were, and the request then
proceeds signed with the retained signer (the first forwarded attempt of
`auth_flow` is signed by the pre-call signer). -/
theorem c4_refresh_failure_atomic (w : SessionWorld) (st : AuthState)
    (now now401 : Int) (content : String) (status1 status2 : Nat)
    (refresh2 : Except Unit Nat) (resign2_ok : Bool)
    (hfail : session_refresh_signer w = .error ()) :
    (refresh_if_needed st now (session_refresh_signer w)).1 = st
    ∧ (auth_flow st now (session_refresh_signer w) content status1 now401
        refresh2 resign2_ok status2).forwarded_signers.head? = some st.signer := by
  rw [hfail]
  have h1 : (refresh_if_needed st now (Except.error ())).1 = st := by
    unfold refresh_if_needed
    split
    · rfl
    · rfl
  refine ⟨h1, ?_⟩
  unfold auth_flow
  rw [h1]
  by_cases h401 : status1 = 401 <;> cases refresh2 <;> cases resign2_ok <;>
    simp [h401]

/-- Environment in which loading the OCI configuration file itself
raises, so every step of the session refresh fails. -/
def session_world_broken_config : SessionWorld :=
  { from_file := .error ()
    read_token := fun _ => .error ()
    load_private_key := fun _ => .error ()
    mk_security_token_signer := fun _ _ => .ok 99 }

/-- Claim C4 witness: the atomicity statement evaluated in a concrete
environment whose configuration load raises, on a concrete stale state. -/
theorem c4_witness :
    session_refresh_signer session_world_broken_config = .error ()
    ∧ ((refresh_if_needed ⟨7, 3600, some 1⟩ 50000
          (session_refresh_signer session_world_broken_config)).1 = ⟨7, 3600, some 1⟩
        ∧ (auth_flow ⟨7, 3600, some 1⟩ 50000
            (session_refresh_signer session_world_broken_config) "body" 200 50001
            (Except.ok 8) true 200).forwarded_signers.head? = some 7) :=
  ⟨rfl, c4_refresh_failure_atomic session_world_broken_config ⟨7, 3600, some 1⟩
    50000 50001 "body" 200 200 (Except.ok 8) true rfl⟩

/-- Claim C5, counterexample: a freshly constructed authenticator has
`last_refresh` set (to the construction time, not unset), and the very
first staleness check — at the construction instant, with the default
3600-second interval — reports fresh, refuting the claim that the first
check always reports stale. -/
theorem c5_counterexample :
    (httpx_oci_auth_init 0 3600 1000).last_refresh ≠ none
    ∧ should_refresh_token (httpx_oci_auth_init 0 3600 1000).last_refresh 1000 3600 = false := by
  decide

/-- Claim C5, amended: a newly constructed authenticator has
`last_refresh` set to the construction time, so (for a nonzero
construction timestamp) the first staleness check reports stale exactly
when `refresh_interval` has already elapsed since construction — a first
request issued earlier triggers no refresh attempt. -/
theorem c5_amended_init_sets_last_refresh (s : Nat) (interval t0 t : Int)
    (h : t0 ≠ 0) :
    (httpx_oci_auth_init s interval t0).last_refresh = some t0
    ∧ (should_refresh_token (httpx_oci_auth_init s interval t0).last_refresh t interval = true
        ↔ t - t0 ≥ interval) := by
  refine ⟨rfl, ?_⟩
  simp [httpx_oci_auth_init, should_refresh_token, h]

/-- Claim C5 witness: the amended statement evaluated at construction
time 1000 with the default interval, checked at time 2000. -/
theorem c5_witness :
    (1000 : Int) ≠ 0
    ∧ ((httpx_oci_auth_init 0 3600 1000).last_refresh = some 1000
        ∧ (should_refresh_token (httpx_oci_auth_init 0 3600 1000).last_refresh 2000 3600 = true
            ↔ (2000 : Int) - 1000 ≥ 3600)) :=
  ⟨by decide, c5_amended_init_sets_last_refresh 0 3600 1000 2000 (by decide)⟩

/-- Claim C6, counterexample: with `refresh_interval = 1000001` and
current time `1000000`, a `last_refresh` of `now - (N - 1) = 0` is
reported stale — `not self._last_refresh` treats the zero timestamp like
an unset one — refuting the claim that `last_refresh = now - (N - 1)` is
always reported fresh. -/
theorem c6_counterexample :
    (1000000 : Int) - (1000001 - 1) = 0
    ∧ should_refresh_token (some ((1000000 : Int) - (1000001 - 1))) 1000000 1000001 = true := by
  decide

/-- Claim C6, amended: for every interval `N` and time `now`, the check
reports stale for `last_refresh = now - (N + 1)` and for an unset
`last_refresh`, and reports fresh for `last_refresh = now - (N - 1)`
provided that timestamp is nonzero (the code treats a zero timestamp
like an unset one). -/
theorem c6_amended_staleness_boundaries (N now : Int)
    (h : now - (N - 1) ≠ 0) :
    should_refresh_token (some (now - (N + 1))) now N = true
    ∧ should_refresh_token (some (now - (N - 1))) now N = false
    ∧ should_refresh_token none now N = true := by
  refine ⟨?_, ?_, rfl⟩
  · show (if now - (N + 1) = 0 then true else decide (now - (now - (N + 1)) ≥ N)) = true
    by_cases h0 : now - (N + 1) = 0
    · rw [if_pos h0]
    · rw [if_neg h0]
      have hge : now - (now - (N + 1)) ≥ N := by omega
      simp [hge]
  · show (if now - (N - 1) = 0 then true else decide (now - (now - (N - 1)) ≥ N)) = false
    rw [if_neg h]
    have hlt : ¬(now - (now - (N - 1)) ≥ N) := by omega
    simp [hlt]

/-- Claim C6 witness: the amended statement evaluated at interval 3600
and time 10000. -/
theorem c6_witness :
    (10000 : Int) - (3600 - 1) ≠ 0
    ∧ (should_refresh_token (some ((10000 : Int) - (3600 + 1))) 10000 3600 = true
        ∧ should_refresh_token (some ((10000 : Int) - (3600 - 1))) 10000 3600 = false
        ∧ should_refresh_token none 10000 3600 = true) :=
  ⟨by decide, c6_amended_staleness_boundaries 3600 10000 (by decide)⟩
